import Mathlib

/-!
Verification of the Smart_Tactic event-processing core
(`src/smart-tactic-prod/app/services/{fallback_engine,orchestrator,autofill_engine}.py`).

Python payloads are open string-keyed dictionaries; we embed them as
insertion-ordered association lists of `Val`, the small universe of values the
pipeline manipulates (strings, ints, `None`, `datetime` objects and lists).
External collaborators (the generative-text service and the event-handling
persistence collaborator) are parameters of the model, exactly at the
interface boundary the repository's own service layer uses.
-/

/-- A Python value as it occurs in the event-processing pipeline:
strings, integers, `None`, `datetime` objects (abstracted to a tick count),
and lists. -/
inductive Val where
  | vStr (s : String)
  | vInt (n : Int)
  | vNone
  | vTime (t : Nat)
  | vList (l : List Val)

/-- Python `==` on `Val` (cross-type comparisons are `False`, as in Python for
these types). -/
def Val.beq : Val → Val → Bool
  | .vStr a, .vStr b => a == b
  | .vInt a, .vInt b => a == b
  | .vNone, .vNone => true
  | .vTime a, .vTime b => a == b
  | .vList a, .vList b => go a b
  | _, _ => false
where
  go : List Val → List Val → Bool
    | [], [] => true
    | x :: xs, y :: ys => Val.beq x y && go xs ys
    | _, _ => false

instance : BEq Val := ⟨Val.beq⟩

/-- Python `v == "lit"` for a string literal (`False` on non-strings). -/
def Val.eqStr : Val → String → Bool
  | .vStr s, t => s == t
  | _, _ => false

/-- Python truthiness for `Val`: empty strings, zero, `None` and empty lists
are falsy; `datetime` objects are always truthy. -/
def Val.truthy : Val → Bool
  | .vStr s => !s.isEmpty
  | .vInt n => n != 0
  | .vNone => false
  | .vTime _ => true
  | .vList l => !l.isEmpty

/-- A Python `dict` with string keys: an insertion-ordered association list.
Replacing the value of an existing key keeps its position (CPython dict
semantics); a new key is appended at the end. -/
abbrev PyDict (V : Type) := List (String × V)

/-- `d.get(k)`: first binding of `k`, if any (keys are kept unique by `pySet`). -/
def pyGet? {V : Type} (d : PyDict V) (k : String) : Option V :=
  (d.find? (fun p => p.1 == k)).map Prod.snd

/-- `d.get(k, dflt)`. -/
def pyGetD {V : Type} (d : PyDict V) (k : String) (dflt : V) : V :=
  (pyGet? d k).getD dflt

/-- `k in d`. -/
def pyContains {V : Type} (d : PyDict V) (k : String) : Bool :=
  (pyGet? d k).isSome

/-- `d[k] = v`: in-place replacement when the key exists, append otherwise. -/
def pySet {V : Type} (d : PyDict V) (k : String) (v : V) : PyDict V :=
  if pyContains d k then d.map (fun p => if p.1 == k then (k, v) else p)
  else d ++ [(k, v)]

/-- `d.pop(k, None)` / `del d[k]` (the removed value, when needed, is read
with `pyGet?` first). -/
def pyPop {V : Type} (d : PyDict V) (k : String) : PyDict V :=
  d.filter (fun p => p.1 != k)

/-- `d.update(other)`: set every binding of `other`, in order. -/
def pyUpdate {V : Type} (d other : PyDict V) : PyDict V :=
  other.foldl (fun acc p => pySet acc p.1 p.2) d

/-- `d.keys()` (in insertion order). -/
def pyKeys {V : Type} (d : PyDict V) : List String :=
  d.map Prod.fst

/-- An event payload: a Python dict of `Val`s. -/
abbrev Dict := PyDict Val

/-- `payload.get(k)` with Python's implicit `None` default, then truthiness —
the ubiquitous `if not payload.get(k)` test. -/
def truthyAt (d : Dict) (k : String) : Bool :=
  (pyGetD d k .vNone).truthy

/-! ## Fallback engine (`app/services/fallback_engine.py`) -/

/-- `needle` is a prefix of the second list. -/
def charsPrefix : List Char → List Char → Bool
  | [], _ => true
  | _ :: _, [] => false
  | a :: as, b :: bs => a == b && charsPrefix as bs

/-- `needle` occurs contiguously somewhere in the second list. -/
def charsInfix (needle : List Char) : List Char → Bool
  | [] => needle.isEmpty
  | h :: t => charsPrefix needle (h :: t) || charsInfix needle t

/-- Python `sub in s` (substring containment). -/
def strContains (s sub : String) : Bool :=
  charsInfix sub.toList s.toList

/-- `s.lower()` (character-wise, which is what ASCII error messages need). -/
def strToLower (s : String) : String :=
  ⟨s.toList.map Char.toLower⟩

/-- `s.strip()`: remove leading and trailing whitespace. -/
def strTrim (s : String) : String :=
  ⟨((s.toList.dropWhile Char.isWhitespace).reverse.dropWhile Char.isWhitespace).reverse⟩

/-- Helper for `pySplitWs`: accumulate the current word (reversed) and break on
whitespace, dropping empty pieces. -/
def splitWsAux : List Char → List Char → List String
  | [], acc => if acc.isEmpty then [] else [⟨acc.reverse⟩]
  | c :: cs, acc =>
    if c.isWhitespace then
      if acc.isEmpty then splitWsAux cs [] else (⟨acc.reverse⟩ : String) :: splitWsAux cs []
    else splitWsAux cs (c :: acc)

/-- Python `s.split()` with no argument: split on whitespace runs, dropping
empty pieces. -/
def pySplitWs (s : String) : List String :=
  splitWsAux s.toList []

/-- Python `s.strip('"\'')`: remove leading and trailing quote characters. -/
def pyStripQuotes (s : String) : String :=
  let isQ := fun (c : Char) => c == '"' || c == '\''
  ⟨((s.toList.dropWhile isQ).reverse.dropWhile isQ).reverse⟩

/-- The scan inside `_extract_field_name_from_error`: the first token equal to
`"field"` (case-insensitively) that has a successor yields that successor,
stripped of quotes; a trailing `"field"` token yields nothing. -/
def scanFieldToken : List String → Option String
  | p :: q :: rest =>
    if strToLower p == "field" then some (pyStripQuotes q) else scanFieldToken (q :: rest)
  | _ => none

/-- `_extract_field_name_from_error`: whitespace-split the message and return
the token after a literal `field` token.  Note the split keeps punctuation
attached, so the token produced by `"Missing required field: title"` is
`"field:"`, which never compares equal to `"field"`. -/
def extractFieldNameFromError (error : String) : Option String :=
  if strContains (strToLower error) "field" then scanFieldToken (pySplitWs error) else none

/-- `_get_default_value_for_field`. -/
def getDefaultValueForField (f : String) : Val :=
  if f == "title" then .vStr "Untitled Event"
  else if f == "description" then .vStr ""
  else if f == "event_type" then .vStr "general"
  else if f == "email" then .vStr ""
  else if f == "phone" then .vStr ""
  else if f == "date" then .vNone
  else .vStr ""

/-- `_fix_field_format`: trim-and-lowercase an email string, keep only digits
of a phone string, otherwise return the value unchanged. -/
def fixFieldFormat (v : Val) (f : String) : Val :=
  if f == "email" then
    match v with
    | .vStr s => .vStr (strToLower (strTrim s))
    | _ => v
  else if f == "phone" then
    match v with
    | .vStr s => .vStr ⟨s.toList.filter Char.isDigit⟩
    | _ => v
  else v

/-- `_get_valid_value_for_field` simply defers to the defaults table. -/
def getValidValueForField (f : String) : Val :=
  getDefaultValueForField f

/-- Python `if field_name:` — an extracted name must also be non-empty. -/
def extractedName (error : String) : Option String :=
  match extractFieldNameFromError error with
  | some f => if f.isEmpty then none else some f
  | none => none

/-- One iteration of the error loop in `_attempt_rule_based_correction`. -/
def ruleCorrectStep (corrected : Dict) (error : String) : Dict :=
  if strContains (strToLower error) "missing required field" then
    match extractedName error with
    | some f => pySet corrected f (getDefaultValueForField f)
    | none => corrected
  else if strContains (strToLower error) "invalid format" then
    match extractedName error with
    | some f =>
      if pyContains corrected f then pySet corrected f (fixFieldFormat (pyGetD corrected f .vNone) f)
      else corrected
    | none => corrected
  else if strContains (strToLower error) "invalid value" then
    match extractedName error with
    | some f =>
      if pyContains corrected f then pySet corrected f (getValidValueForField f)
      else corrected
    | none => corrected
  else corrected

/-- Result shape shared by the three `_attempt_*_correction` strategies. -/
structure CorrectionResult where
  success : Bool
  corrected_payload : Dict := []
  error : String := ""

/-- `_attempt_rule_based_correction`: fold the rule fixes over the error list.
None of its operations can raise, so it always reports success — even when no
error matched and the payload is returned unchanged. -/
def attemptRuleBasedCorrection (payload : Dict) (errors : List String) : CorrectionResult :=
  { success := true, corrected_payload := errors.foldl ruleCorrectStep payload }

/-- `_get_event_template`: the static templates keyed by declared event type. -/
def getEventTemplate (et : Val) : Option Dict :=
  if et.eqStr "conference" then
    some [("event_type", .vStr "conference"), ("title", .vStr ""), ("description", .vStr ""),
          ("venue", .vStr ""), ("date", .vNone), ("capacity", .vInt 100)]
  else if et.eqStr "workshop" then
    some [("event_type", .vStr "workshop"), ("title", .vStr ""), ("description", .vStr ""),
          ("instructor", .vStr ""), ("duration", .vInt 2), ("materials", .vList [])]
  else if et.eqStr "meeting" then
    some [("event_type", .vStr "meeting"), ("title", .vStr ""), ("description", .vStr ""),
          ("agenda", .vList []), ("attendees", .vList [])]
  else none

/-- `_attempt_template_correction`: copy the template for the declared type and
overlay the original payload (original values win). -/
def attemptTemplateCorrection (payload : Dict) (_errors : List String) : CorrectionResult :=
  let event_type := pyGetD payload "event_type" (.vStr "general")
  match getEventTemplate event_type with
  | some tmpl => { success := true, corrected_payload := pyUpdate tmpl payload }
  | none => { success := false, error := "No template found" }

/-- Outcome of the external generative-text collaborator
(`GeminiLLM.correct_event_data`): either a corrected payload, or a failure
(service error, parse failure or raised exception — `_attempt_llm_correction`
catches all of these and reports strategy failure). -/
inductive LLMOutcome where
  | ok (corrected : Dict)
  | fail (err : String)

/-- `_attempt_llm_correction`, parameterized by the collaborator's outcome. -/
def attemptLLMCorrection (llm : LLMOutcome) (_payload : Dict) (_errors : List String) :
    CorrectionResult :=
  match llm with
  | .ok c => { success := true, corrected_payload := c }
  | .fail e => { success := false, error := e }

/-- Result of `handle_invalid_event`. -/
structure HIEResult where
  success : Bool
  corrected_payload : Option Dict := none
  correction_method : Option String := none
  error : Option String := none
  original_errors : List String := []

/-- `handle_invalid_event`: the ordered correction cascade — generative (named
`llm` in the result), then rule-based (`rules`), then template (`template`);
the first strategy reporting success supplies the corrected payload. -/
def handleInvalidEvent (llm : LLMOutcome) (payload : Dict) (validation_errors : List String) :
    HIEResult :=
  let c1 := attemptLLMCorrection llm payload validation_errors
  if c1.success then
    { success := true, corrected_payload := some c1.corrected_payload,
      correction_method := some "llm", original_errors := validation_errors }
  else
    let c2 := attemptRuleBasedCorrection payload validation_errors
    if c2.success then
      { success := true, corrected_payload := some c2.corrected_payload,
        correction_method := some "rules", original_errors := validation_errors }
    else
      let c3 := attemptTemplateCorrection payload validation_errors
      if c3.success then
        { success := true, corrected_payload := some c3.corrected_payload,
          correction_method := some "template", original_errors := validation_errors }
      else
        { success := false, error := some "Unable to correct validation errors",
          original_errors := validation_errors }

/-! ### `process_event` and the fallback audit store -/

/-- Python `'@' in v` / `'@' not in v`: substring test on strings, element test
on lists, `TypeError` on non-iterable values (ints, datetimes). -/
def pyContainsAt : Val → Except String Bool
  | .vStr s => .ok (strContains s "@")
  | .vList l => .ok (l.any (fun v => v.eqStr "@"))
  | _ => .error "TypeError: argument is not iterable"

/-- `_load_fallback_rules`: `(condition, action, value)` triples. -/
def fallbackRules : List (String × String × Val) :=
  [("missing_title", "set_default_title", .vStr "Untitled Event"),
   ("missing_event_type", "set_default_type", .vStr "general"),
   ("invalid_email", "remove_invalid_email", .vNone)]

/-- `_rule_applies`.  The `invalid_email` condition evaluates
`email and '@' not in email`, which can raise `TypeError` for a truthy
non-iterable email value. -/
def ruleApplies (condition : String) (payload : Dict) : Except String Bool :=
  if condition == "missing_title" then .ok (!truthyAt payload "title")
  else if condition == "missing_event_type" then .ok (!truthyAt payload "event_type")
  else if condition == "invalid_email" then
    let email := pyGetD payload "email" (.vStr "")
    if email.truthy then do
      let hasAt ← pyContainsAt email
      pure !hasAt
    else pure false
  else .ok false

/-- `_apply_rule`. -/
def applyRule (action : String) (value : Val) (payload : Dict) : Dict :=
  if action == "set_default_title" then pySet payload "title" value
  else if action == "set_default_type" then pySet payload "event_type" value
  else if action == "remove_invalid_email" then pyPop payload "email"
  else payload

/-- `_apply_fallback_rules`: apply every applicable rule in order. -/
def applyFallbackRules (payload : Dict) : Except String Dict :=
  fallbackRules.foldlM
    (fun acc r => do
      let applies ← ruleApplies r.1 acc
      pure (if applies then applyRule r.2.1 r.2.2 acc else acc))
    payload

/-- The fallback engine's own `_validate_processed_payload`: `title` and
`event_type` must be present and truthy; returns `(valid, errors)`. -/
def fbValidateProcessedPayload (payload : Dict) : Bool × List String :=
  let errors := (["title", "event_type"].filter
    (fun f => !pyContains payload f || !truthyAt payload f)).map
    (fun f => "Missing required field: " ++ f)
  (errors.isEmpty, errors)

/-- `_apply_field_mapping`: rename synonym keys to their canonical names. -/
def applyFieldMapping (payload : Dict) : Dict :=
  [("name", "title"), ("event_name", "title"), ("type", "event_type"),
   ("desc", "description"), ("details", "description")].foldl
    (fun acc m =>
      if pyContains acc m.1 && !pyContains acc m.2 then
        let v := pyGetD acc m.1 .vNone
        pySet (pyPop acc m.1) m.2 v
      else acc)
    payload

/-- Python `int(s)` on a string: optional sign and decimal digits after
stripping whitespace; anything else raises `ValueError` (`none`). -/
def pyIntOfString (s : String) : Option Int :=
  let t := (strTrim s).toList
  let core : Option (Int × List Char) :=
    match t with
    | '-' :: rest => some (-1, rest)
    | '+' :: rest => some (1, rest)
    | rest => some (1, rest)
  match core with
  | some (sign, digits) =>
    if !digits.isEmpty && digits.all Char.isDigit then
      some (sign * (digits.foldl (fun n c => 10 * n + (c.toNat - '0'.toNat)) 0 : Nat))
    else none
  | none => none

/-- `_apply_data_type_conversion`: numeric-looking strings in the known numeric
fields become ints; conversion failures are swallowed. -/
def applyDataTypeConversion (payload : Dict) : Dict :=
  ["capacity", "duration", "price"].foldl
    (fun acc f =>
      match pyGet? acc f with
      | some (.vStr s) =>
        match pyIntOfString s with
        | some n => pySet acc f (.vInt n)
        | none => acc
      | _ => acc)
    payload

/-- `_inject_default_values`: force the four required fields to be present and
truthy. -/
def injectDefaultValues (payload : Dict) : Dict :=
  [("title", Val.vStr "Untitled Event"), ("event_type", Val.vStr "general"),
   ("description", Val.vStr ""), ("status", Val.vStr "draft")].foldl
    (fun acc p =>
      if !pyContains acc p.1 || !truthyAt acc p.1 then pySet acc p.1 p.2 else acc)
    payload

/-- `_apply_additional_fallback_strategies`: field mapping, then type
conversion, then default injection.  None of the three steps can raise, so the
strategy always reports success. -/
def applyAdditionalFallbackStrategies (payload : Dict) (_errors : List String) : Bool × Dict :=
  (true, injectDefaultValues (applyDataTypeConversion (applyFieldMapping payload)))

/-- A `FallbackResult` audit record as `_store_fallback_result` would build it. -/
structure FallbackRecord where
  original_payload : Dict
  processed_payload : Dict
  status : String

/-- The import list of `fallback_engine.py`: `json`, the `typing` names,
`GeminiLLM`, `SQLClient`, `get_logger` and `ValidationResult`.  The name
`datetime`, used by `_store_fallback_result`, is not among them. -/
def fallbackEngineImports : List String :=
  ["json", "typing", "GeminiLLM", "SQLClient", "get_logger", "ValidationResult"]

/-- Building `result_data` in `_store_fallback_result` evaluates
`datetime.utcnow().isoformat()`; since `datetime` is not imported in
`fallback_engine.py`, this raises `NameError` before the record is built. -/
def buildFallbackRecord (orig processed : Dict) (status : String) :
    Except String FallbackRecord :=
  if fallbackEngineImports.contains "datetime" then
    .ok { original_payload := orig, processed_payload := processed, status := status }
  else
    .error "NameError: name 'datetime' is not defined"

/-- `_store_fallback_result`, acting on the metadata store (modelled as the
list of persisted records): its own `try/except` swallows the `NameError`
raised while building `result_data`, so the store is left unchanged. -/
def storeFallbackResult (store : List FallbackRecord) (orig processed : Dict)
    (status : String) : List FallbackRecord :=
  match buildFallbackRecord orig processed status with
  | .ok r => store ++ [r]
  | .error _ => store

/-- Result of `FallbackEngine.process_event`. -/
structure ProcessEventResult where
  success : Bool
  processed_payload : Option Dict := none
  fallback_applied : Bool := false
  error : Option String := none
  validation_errors : List String := []

/-- `process_event`: apply the fallback rules, validate, optionally run the
additional strategies, and store a `FallbackResult` on every non-exception
path.  Returns the result together with the metadata store. -/
def processEvent (store : List FallbackRecord) (payload : Dict) :
    ProcessEventResult × List FallbackRecord :=
  match applyFallbackRules payload with
  | .error e => ({ success := false, error := some e }, store)
  | .ok processed =>
    let v := fbValidateProcessedPayload processed
    if v.1 then
      ({ success := true, processed_payload := some processed, fallback_applied := true },
       storeFallbackResult store payload processed "success")
    else
      let add := applyAdditionalFallbackStrategies processed v.2
      if add.1 then
        ({ success := true, processed_payload := some add.2, fallback_applied := true },
         storeFallbackResult store payload add.2 "success")
      else
        ({ success := false, error := some "Fallback processing failed",
           validation_errors := v.2 },
         storeFallbackResult store payload processed "failed")

/-! ## Orchestrator (`app/services/orchestrator.py`)

`EventOrchestrator` composes deterministic local logic with two external
collaborators: `datetime.utcnow` / `datetime.fromisoformat` and the
`EventHandler` persistence collaborator (spec §6 treats the latter purely at
its interface).  They are bundled in `OrchEnv`. -/

/-- Result dict of `EventHandler.create_event`: `{success, event_id,
form_fields, autofill_applied}` on success, `{success: False, error}` on
failure.  `event_id` is optional so that arbitrary collaborator responses can
be quantified over. -/
structure CreateResult where
  success : Bool
  event_id : Option String := none
  error : String := ""

/-- External inputs of one orchestration run: the clock, ISO-date parsing
(`None` for a `ValueError`), the generated workflow id, and the
`EventHandler.create_event` collaborator. -/
structure OrchEnv where
  now : Nat
  parseDate : String → Option Nat
  workflowId : String
  createEvent : Dict → CreateResult

/-- `_normalize_payload`: strip the three string fields, and parse an ISO
`date` string (with `Z` rewritten to `+00:00`); a parse failure is swallowed. -/
def normalizePayload (env : OrchEnv) (payload : Dict) : Dict :=
  let n := ["title", "description", "event_type"].foldl
    (fun (acc : Dict) f =>
      match pyGet? acc f with
      | some (.vStr s) => pySet acc f (.vStr (strTrim s))
      | _ => acc)
    payload
  match pyGet? n "date" with
  | some (.vStr s) =>
    match env.parseDate (s.replace "Z" "+00:00") with
    | some t => pySet n "date" (.vTime t)
    | none => n
  | _ => n

/-- `_apply_business_rules`: default `status`/`created_at`, then the
type-specific defaults (conference capacity 100, workshop duration 2). -/
def applyBusinessRules (env : OrchEnv) (payload : Dict) : Dict :=
  let p := if !truthyAt payload "status" then pySet payload "status" (.vStr "draft") else payload
  let p := if !truthyAt p "created_at" then pySet p "created_at" (.vTime env.now) else p
  let event_type := pyGetD p "event_type" (.vStr "")
  if event_type.eqStr "conference" then
    if !truthyAt p "capacity" then pySet p "capacity" (.vInt 100) else p
  else if event_type.eqStr "workshop" then
    if !truthyAt p "duration" then pySet p "duration" (.vInt 2) else p
  else p

/-- `isinstance(v, int)`. -/
def Val.isInt : Val → Bool
  | .vInt _ => true
  | _ => false

/-- The orchestrator's `_validate_processed_payload`: required `title` and
`event_type`, email must contain `@` when present (Python `in` raises
`TypeError` on a truthy non-iterable email), capacity must be an `int` when
present. -/
def orchValidateProcessedPayload (payload : Dict) : Except String (Bool × List String) := do
  let errs1 := (["title", "event_type"].filter (fun f => !truthyAt payload f)).map
    (fun f => "Missing required field: " ++ f)
  let email := pyGetD payload "email" .vNone
  let errs2 ←
    if email.truthy then do
      let hasAt ← pyContainsAt email
      pure (if !hasAt then ["Invalid email format"] else [])
    else pure []
  let capacity := pyGetD payload "capacity" .vNone
  let errs3 := if capacity.truthy && !capacity.isInt then ["Capacity must be an integer"] else []
  let errors := errs1 ++ errs2 ++ errs3
  pure (errors.isEmpty, errors)

/-- Python `int(v)` for the capacity fix: ints pass through, numeric strings
parse, everything else raises (`ValueError`/`TypeError`, both caught). -/
def pyIntOfVal : Val → Option Int
  | .vInt n => some n
  | .vStr s => pyIntOfString s
  | _ => none

/-- `_fix_validation_issues`: the orchestrator's own local repair of the
validation errors. -/
def fixValidationIssues (payload : Dict) (errors : List String) : Dict :=
  errors.foldl
    (fun fixed error =>
      if strContains error "Missing required field: title" then
        pySet fixed "title" (.vStr "Untitled Event")
      else if strContains error "Missing required field: event_type" then
        pySet fixed "event_type" (.vStr "general")
      else if strContains error "Invalid email format" then
        pyPop fixed "email"
      else if strContains error "Capacity must be an integer" then
        match pyIntOfVal (pyGetD fixed "capacity" .vNone) with
        | some n => pySet fixed "capacity" (.vInt n)
        | none => pySet fixed "capacity" (.vInt 100)
      else fixed)
    payload

/-- Result of `_preprocess_event`. -/
structure PreprocessResult where
  success : Bool
  processed_payload : Dict := []
  corrections_applied : Bool := false
  error : String := ""

/-- `_preprocess_event`: normalize, apply business rules, validate; on
validation failure the payload is repaired by the orchestrator's local
`_fix_validation_issues` and the step still reports success; only an exception
inside validation makes the step fail. -/
def preprocessEvent (env : OrchEnv) (payload : Dict) : PreprocessResult :=
  let normalized := normalizePayload env payload
  let processed := applyBusinessRules env normalized
  match orchValidateProcessedPayload processed with
  | .error e => { success := false, error := e }
  | .ok v =>
    if !v.1 then
      { success := true, processed_payload := fixValidationIssues processed v.2,
        corrections_applied := true }
    else
      { success := true, processed_payload := processed, corrections_applied := false }

/-- The preprocess step as the specification describes it: "if validation
fails, the Fallback Engine is invoked before the step is marked failed" —
i.e. the failing payload is repaired by `FallbackEngine.process_event`.
Stated from the spec's words, for comparison with `preprocessEvent`. -/
def preprocessEventSpec (env : OrchEnv) (payload : Dict) : PreprocessResult :=
  let normalized := normalizePayload env payload
  let processed := applyBusinessRules env normalized
  match orchValidateProcessedPayload processed with
  | .error e => { success := false, error := e }
  | .ok v =>
    if !v.1 then
      { success := true,
        processed_payload := ((processEvent [] processed).1.processed_payload.getD processed),
        corrections_applied := true }
    else
      { success := true, processed_payload := processed, corrections_applied := false }

/-- Result of `_postprocess_event`.  The three dependent sub-tasks
(`_update_related_events`, `_send_creation_notifications`,
`_update_analytics`) all return success, so the step fails exactly when the
create result carries no truthy `event_id`. -/
structure PostprocessResult where
  success : Bool
  error : String := ""

/-- `_postprocess_event`, keyed on `create_result.get('event_id')`. -/
def postprocessFromEventId (event_id : Option String) : PostprocessResult :=
  match event_id with
  | some eid => if eid.isEmpty then { success := false, error := "No event ID in create result" }
                else { success := true }
  | none => { success := false, error := "No event ID in create result" }

/-- Result of `_attempt_fallback_recovery`. -/
structure RecoveryResult where
  success : Bool
  event_id : Option String := none
  fallback_applied : Bool := false
  error : String := ""
  original_error : String := ""

/-- Call trace of the external-effect boundary: the payloads handed to
`EventHandler.create_event` and to `FallbackEngine.process_event`, in order. -/
structure OrchTrace where
  createCalls : List Dict := []
  fallbackProcessCalls : List Dict := []

/-- `_attempt_fallback_recovery`: run `FallbackEngine.process_event` on the
workflow's original payload, then retry `create_event` with the corrected
payload; `create_result['event_id']` raises `KeyError` when missing, caught by
the surrounding `except`.  Returns the result, the fallback store and the
trace of collaborator calls. -/
def attemptFallbackRecovery (env : OrchEnv) (store : List FallbackRecord)
    (original_payload : Dict) (error : String) :
    RecoveryResult × List FallbackRecord × OrchTrace :=
  let pr := processEvent store original_payload
  let fb := pr.1
  let store' := pr.2
  if fb.success then
    let corrected := fb.processed_payload.getD []
    let cr := env.createEvent corrected
    if cr.success then
      match cr.event_id with
      | some eid =>
        ({ success := true, event_id := some eid, fallback_applied := true,
           original_error := error }, store',
         { createCalls := [corrected], fallbackProcessCalls := [original_payload] })
      | none =>
        ({ success := false, error := "KeyError: 'event_id'", original_error := error }, store',
         { createCalls := [corrected], fallbackProcessCalls := [original_payload] })
    else
      ({ success := false, error := "Fallback recovery failed", original_error := error }, store',
       { createCalls := [corrected], fallbackProcessCalls := [original_payload] })
  else
    ({ success := false, error := "Fallback recovery failed", original_error := error }, store',
     { createCalls := [], fallbackProcessCalls := [original_payload] })

/-- A `StepRecord` of the workflow state. -/
structure StepRecord where
  step : String
  status : String

/-- The dict returned by `orchestrate_event_creation`. -/
structure OrchResult where
  success : Bool
  workflow_id : String := ""
  event_id : Option String := none
  error : Option String := none
  steps_completed : Nat := 0

/-- Observable outcome of one `orchestrate_event_creation` run: the returned
dict, the workflow state's step list and final status, the fallback audit
store and the collaborator call trace. -/
structure OrchOutcome where
  result : OrchResult
  steps : List StepRecord
  workflow_status : String
  fallbackStore : List FallbackRecord
  trace : OrchTrace

/-- `orchestrate_event_creation`: preprocess → create (with exactly one
fallback-recovery attempt on the *original* payload when create fails, the
original create error being surfaced if that attempt also fails) →
postprocess (best-effort; its failure is recorded as a failed step but the
run still completes successfully). -/
def orchestrateEventCreation (env : OrchEnv) (store : List FallbackRecord) (payload : Dict) :
    OrchOutcome :=
  let pre := preprocessEvent env payload
  let steps1 := [⟨"preprocess", if pre.success then "completed" else "failed"⟩]
  if !pre.success then
    { result := { success := false, workflow_id := env.workflowId, error := some pre.error },
      steps := steps1, workflow_status := "failed", fallbackStore := store, trace := {} }
  else
    let c1 := env.createEvent pre.processed_payload
    let steps2 := steps1 ++ [⟨"create_event", if c1.success then "completed" else "failed"⟩]
    if !c1.success then
      let r := attemptFallbackRecovery env store payload c1.error
      let recov := r.1
      let store' := r.2.1
      let tr := { r.2.2 with createCalls := pre.processed_payload :: r.2.2.createCalls }
      if recov.success then
        let steps3 := steps2 ++ [⟨"fallback_recovery", "completed"⟩]
        let post := postprocessFromEventId recov.event_id
        let steps4 := steps3 ++ [⟨"postprocess", if post.success then "completed" else "failed"⟩]
        { result := { success := true, workflow_id := env.workflowId,
                      event_id := recov.event_id,
                      steps_completed := (steps4.filter (fun s => s.status == "completed")).length },
          steps := steps4, workflow_status := "completed", fallbackStore := store', trace := tr }
      else
        { result := { success := false, workflow_id := env.workflowId, error := some c1.error },
          steps := steps2, workflow_status := "failed", fallbackStore := store', trace := tr }
    else
      let post := postprocessFromEventId c1.event_id
      let steps3 := steps2 ++ [⟨"postprocess", if post.success then "completed" else "failed"⟩]
      { result := { success := true, workflow_id := env.workflowId, event_id := c1.event_id,
                    steps_completed := (steps3.filter (fun s => s.status == "completed")).length },
        steps := steps3, workflow_status := "completed", fallbackStore := store,
        trace := { createCalls := [pre.processed_payload] } }

/-! ### Batch processing

`orchestrate_batch_processing` runs one pipeline per input event under
`asyncio.gather(..., return_exceptions=True)` and then folds the gathered
results into the batch state.  Each gathered item is either a raised
exception or the pipeline's result dict; the model takes that list as
input (the semaphore only bounds concurrency, it does not change which
results are gathered). -/

/-- One item of the `asyncio.gather` result list. -/
inductive GatherItem where
  | exn (msg : String)
  | val (r : OrchResult)

/-- One per-item entry of `batch_state['results']`. -/
structure BatchEntry where
  event_index : Nat
  success : Bool
  event_id : Option String := none
  workflow_id : Option String := none
  error : Option String := none

/-- The accumulated `batch_state`. -/
structure BatchState where
  total_events : Nat
  processed_events : Nat := 0
  failed_events : Nat := 0
  results : List BatchEntry := []

/-- Classify one gathered item exactly as the result loop does: exceptions and
unsuccessful results are failures, successful results are processed. -/
def processGatherItem (i : Nat) : GatherItem → Bool × BatchEntry
  | .exn msg => (false, { event_index := i, success := false, error := some msg })
  | .val r =>
    if r.success then
      (true, { event_index := i, success := true, event_id := r.event_id,
               workflow_id := some r.workflow_id })
    else
      (false, { event_index := i, success := false, error := r.error })

/-- One iteration of the `for i, result in enumerate(results)` loop. -/
def batchStep (st : BatchState) (p : Nat × GatherItem) : BatchState :=
  match processGatherItem p.1 p.2 with
  | (true, e) => { st with processed_events := st.processed_events + 1,
                           results := st.results ++ [e] }
  | (false, e) => { st with failed_events := st.failed_events + 1,
                            results := st.results ++ [e] }

/-- `orchestrate_batch_processing`, folding the gathered per-item outcomes into
the batch state (counters start at 0, `total_events = len(events)`). -/
def orchestrateBatchProcessing (items : List GatherItem) : BatchState :=
  items.enum.foldl batchStep { total_events := items.length }

/-! ## Autofill engine (`app/services/autofill_engine.py`) -/

/-- One form-field dict `{name, type, label, value, autofilled,
autofill_source}`; `value`/`autofill_source` model absent keys as `none`. -/
structure FormField where
  name : String
  ftype : String := ""
  label : String := ""
  value : Option Val := none
  autofilled : Bool := false
  autofill_source : Option String := none

/-- `field.get('value')` truthiness. -/
def FormField.hasValue (f : FormField) : Bool :=
  match f.value with
  | some v => v.truthy
  | none => false

/-- The form-fields dict `{'fields': [...]}`. -/
structure FormFields where
  fields : List FormField

/-- An autofill-cache entry as `_update_autofill_cache` writes it: a dict with
exactly the keys `payload`, `form_fields` and `timestamp`. -/
structure CacheEntry where
  payload : Dict
  form_fields : FormFields
  timestamp : Nat

/-- The autofill cache `self.cache`: a dict keyed by
`f"{event_type}_{title}"`. -/
abbrev AutofillCache := PyDict CacheEntry

/-- Python `str(v)` as used in the cache-key f-string.  Cache keys in this
development only involve string-valued `event_type`/`title`, so the datetime
and list renderings are abstracted. -/
def pyStr : Val → String
  | .vStr s => s
  | .vInt n => toString n
  | .vNone => "None"
  | .vTime t => toString t
  | .vList _ => "[...]"

/-- `cache_key = f"{payload.get('event_type', 'general')}_{payload.get('title', '')}"`. -/
def autofillCacheKey (payload : Dict) : String :=
  pyStr (pyGetD payload "event_type" (.vStr "general")) ++ "_" ++
    pyStr (pyGetD payload "title" (.vStr ""))

/-- `_update_autofill_cache`: insert the entry under its key; when the cache
then holds more than 100 entries, delete the first 20 keys in sorted key
order in one batch. -/
def updateAutofillCache (cache : AutofillCache) (payload : Dict) (form_fields : FormFields)
    (now : Nat) : AutofillCache :=
  let c := pySet cache (autofillCacheKey payload) ⟨payload, form_fields, now⟩
  if c.length > 100 then
    let oldest_keys := ((pyKeys c).insertionSort (· ≤ ·)).take 20
    oldest_keys.foldl (fun acc k => pyPop acc k) c
  else c

/-- `cached_event.get('event_type')`: the entries written by
`_update_autofill_cache` carry exactly the keys `payload`, `form_fields` and
`timestamp`, so this lookup is always Python `None`. -/
def CacheEntry.getEventType (_e : CacheEntry) : Val :=
  .vNone

/-- `cached_event.get('form_fields')` truthiness: a stored form-fields dict
always carries its `fields` key (and `apply_autofill` refuses falsy
form-field dicts before caching), so it is truthy. -/
def CacheEntry.hasFormFields (_e : CacheEntry) : Bool :=
  true

/-- `_find_similar_events`: filter the cached entries (in insertion order) by
`cached_event.get('event_type') == event_type` and truthy form fields, then
keep the last five (`[-5:]`). -/
def findSimilarEvents (cache : AutofillCache) (payload : Dict) : List CacheEntry :=
  let event_type := pyGetD payload "event_type" (.vStr "")
  let similar := (cache.map Prod.snd).filter
    (fun e => Val.beq e.getEventType event_type && e.hasFormFields)
  similar.drop (similar.length - 5)

/-- All field names appearing across the sampled entries.  Python collects
them in a `set` (unordered); we fix first-seen order — `common_values` is
keyed by name, so the outcome does not depend on this order. -/
def allFieldNames (events : List CacheEntry) : List String :=
  (events.flatMap (fun e => e.form_fields.fields.map (fun f => f.name))).eraseDups

/-- The non-empty values recorded for `name` across the sampled entries, in
sample order. -/
def valuesForField (events : List CacheEntry) (name : String) : List Val :=
  events.flatMap
    (fun e => (e.form_fields.fields.filter (fun f => f.name == name && f.hasValue)).map
      (fun f => f.value.getD .vNone))

/-- `max(set(values), key=values.count)`: a value of maximal occurrence count.
Python's tie-break (set iteration order) is unspecified; we fix the first
listed value of maximal count. -/
def mostCommonVal (values : List Val) : Val :=
  values.foldl (fun best v => if values.count v > values.count best then v else best)
    (values.headD .vNone)

/-- `_extract_common_values`: for each observed field name, the most common
non-empty value, kept only when its count reaches 60% of the values sampled
for that field (`count >= len * 0.6`, exact for the sample sizes ≤ 5 that can
occur, rendered as `6 * len ≤ 10 * count`). -/
def extractCommonValues (similar : List CacheEntry) : PyDict Val :=
  if similar.isEmpty then []
  else
    (allFieldNames similar).foldl
      (fun common name =>
        let values := valuesForField similar name
        if !values.isEmpty then
          let mc := mostCommonVal values
          if 6 * values.length ≤ 10 * values.count mc then pySet common name mc else common
        else common)
      []

/-- `_apply_common_values`: fill every still-empty field that has a common
value, tagging it `autofill_source = 'cache'`. -/
def applyCommonValues (form_fields : FormFields) (common : PyDict Val) : FormFields :=
  ⟨form_fields.fields.map
    (fun f =>
      if pyContains common f.name && !f.hasValue then
        { f with value := some (pyGetD common f.name .vNone), autofilled := true,
                 autofill_source := some "cache" }
      else f)⟩

/-- `_apply_cache_autofill`: sample similar events and merge their common
values into the form fields; with no similar events the fields pass through
unchanged. -/
def applyCacheAutofill (cache : AutofillCache) (form_fields : FormFields) (payload : Dict) :
    FormFields :=
  let similar := findSimilarEvents cache payload
  if !similar.isEmpty then applyCommonValues form_fields (extractCommonValues similar)
  else form_fields

/-! ## Claim theorems -/

/-- C1 (counterexample): at a concrete input whose generative correction
succeeds, `handle_invalid_event` reports `correction_method = "llm"` — the
first succeeding strategy's name is not drawn from `{ai, rules, template}` as
the claim states. -/
theorem correction_method_llm_counterexample :
    (handleInvalidEvent (.ok [("title", Val.vStr "Fixed")])
        [("event_type", Val.vStr "conference")]
        ["Missing required field: title"]).correction_method = some "llm" ∧
    ¬ ((handleInvalidEvent (.ok [("title", Val.vStr "Fixed")])
        [("event_type", Val.vStr "conference")]
        ["Missing required field: title"]).correction_method ∈
          [some "ai", some "rules", some "template"]) := by
  refine ⟨rfl, ?_⟩
  decide

/-- C1 (amended): for every payload and non-empty error list,
`handle_invalid_event` tries generative correction first and rule-based
correction second, stops at the first strategy that reports success, returns
that strategy's corrected payload with `success: true`, and reports
`correction_method` as the name of that first succeeding strategy, drawn from
`{llm, rules, template}`. -/
theorem handleInvalidEvent_cascade (llm : LLMOutcome) (payload : Dict)
    (errors : List String) (_hne : errors ≠ []) :
    (∀ c, llm = .ok c →
      handleInvalidEvent llm payload errors =
        { success := true, corrected_payload := some c, correction_method := some "llm",
          original_errors := errors }) ∧
    (∀ e, llm = .fail e →
      handleInvalidEvent llm payload errors =
        { success := true,
          corrected_payload := some (attemptRuleBasedCorrection payload errors).corrected_payload,
          correction_method := some "rules", original_errors := errors }) ∧
    ((handleInvalidEvent llm payload errors).correction_method = some "llm" ∨
     (handleInvalidEvent llm payload errors).correction_method = some "rules" ∨
     (handleInvalidEvent llm payload errors).correction_method = some "template") := by
  refine ⟨?_, ?_, ?_⟩ <;> cases llm <;>
    simp [handleInvalidEvent, attemptLLMCorrection, attemptRuleBasedCorrection]

/-- Witness for `handleInvalidEvent_cascade` at a concrete input. -/
theorem handleInvalidEvent_cascade_witness :
    (["Missing required field: title"] ≠ ([] : List String)) ∧
    handleInvalidEvent (.ok [("title", Val.vStr "Fixed")]) []
        ["Missing required field: title"] =
      { success := true, corrected_payload := some [("title", Val.vStr "Fixed")],
        correction_method := some "llm",
        original_errors := ["Missing required field: title"] } :=
  ⟨by simp,
   (handleInvalidEvent_cascade (.ok [("title", Val.vStr "Fixed")]) []
      ["Missing required field: title"] (by simp)).1 _ rfl⟩

/-- C10: `_attempt_rule_based_correction` always reports success — also when no
error matches and the payload is unchanged — so a failed (non-raising)
generative strategy always yields `success: true` with `correction_method =
"rules"`; the template strategy and the all-strategies-failed branch are
unreachable. -/
theorem attemptRuleBasedCorrection_always_succeeds (payload : Dict) (errors : List String)
    (e : String) (llm : LLMOutcome) :
    (attemptRuleBasedCorrection payload errors).success = true ∧
    handleInvalidEvent (.fail e) payload errors =
      { success := true,
        corrected_payload := some (attemptRuleBasedCorrection payload errors).corrected_payload,
        correction_method := some "rules", original_errors := errors } ∧
    (handleInvalidEvent llm payload errors).success = true ∧
    (handleInvalidEvent llm payload errors).correction_method ≠ some "template" := by
  refine ⟨rfl, rfl, ?_, ?_⟩ <;> cases llm <;>
    simp [handleInvalidEvent, attemptLLMCorrection, attemptRuleBasedCorrection]

/-- C9: on the spec's own example — payload `{event_type: "conference"}` with
validation error `"Missing required field: title"` — `_extract_field_name_from_error`
returns nothing (the whitespace-split token is `"field:"`, never equal to
`"field"`), so the rule layer injects no `title`, the "corrected" payload is
returned unchanged and still fails re-validation, although the cascade still
reports `correction_method = "rules"`. -/
theorem missing_title_rule_fix_not_applied :
    extractFieldNameFromError "Missing required field: title" = none ∧
    (attemptRuleBasedCorrection [("event_type", Val.vStr "conference")]
        ["Missing required field: title"]).corrected_payload
      = [("event_type", Val.vStr "conference")] ∧
    pyContains (attemptRuleBasedCorrection [("event_type", Val.vStr "conference")]
        ["Missing required field: title"]).corrected_payload "title" = false ∧
    (fbValidateProcessedPayload (attemptRuleBasedCorrection [("event_type", Val.vStr "conference")]
        ["Missing required field: title"]).corrected_payload).1 = false ∧
    (handleInvalidEvent (.fail "generative correction unavailable")
        [("event_type", Val.vStr "conference")]
        ["Missing required field: title"]).correction_method = some "rules" :=
  ⟨rfl, rfl, rfl, rfl, rfl⟩

/-- C8: `fallback_engine.py` does not import `datetime`, so
`_store_fallback_result` swallows a `NameError` on every call and never
persists a `FallbackResult`: a successful `process_event` run leaves the
metadata store empty, and the store function is the identity on the store for
every input. -/
theorem processEvent_persists_no_record :
    (processEvent [] [("title", Val.vStr "Launch"), ("event_type", Val.vStr "conference")]).1.success
      = true ∧
    (processEvent [] [("title", Val.vStr "Launch"), ("event_type", Val.vStr "conference")]).2
      = [] ∧
    fallbackEngineImports.contains "datetime" = false ∧
    (∀ (store : List FallbackRecord) (orig processed : Dict) (status : String),
      storeFallbackResult store orig processed status = store) :=
  ⟨rfl, rfl, rfl, fun _ _ _ _ => rfl⟩

/-- C5: the similarity-cache reader `_find_similar_events` compares the
payload's `event_type` against `cached_event.get('event_type')`, a key the
cache writer never stores; at a concrete cache holding an entry of the same
event type (with a 100% majority value for the empty `description` field),
nothing is sampled and nothing is filled. -/
theorem similarity_cache_never_matches :
    (Val.beq
      (pyGetD ([("event_type", Val.vStr "conference"), ("title", Val.vStr "Past")] : Dict)
        "event_type" (.vStr ""))
      (pyGetD ([("event_type", Val.vStr "conference")] : Dict) "event_type" (.vStr ""))
      = true) ∧
    findSimilarEvents
      [("conference_Past",
        ⟨[("event_type", Val.vStr "conference"), ("title", Val.vStr "Past")],
         ⟨[{ name := "description", ftype := "text", value := some (Val.vStr "Great talk") }]⟩,
         0⟩)]
      [("event_type", Val.vStr "conference")] = [] ∧
    applyCacheAutofill
      [("conference_Past",
        ⟨[("event_type", Val.vStr "conference"), ("title", Val.vStr "Past")],
         ⟨[{ name := "description", ftype := "text", value := some (Val.vStr "Great talk") }]⟩,
         0⟩)]
      ⟨[{ name := "description", ftype := "text" }]⟩
      [("event_type", Val.vStr "conference")]
      = ⟨[{ name := "description", ftype := "text" }]⟩ :=
  ⟨rfl, rfl, rfl⟩

/-- C6 (counterexample): at a concrete payload whose processed form fails
validation (`capacity: "abc"`), the preprocess step's repaired payload is the
output of the orchestrator's own `_fix_validation_issues` (capacity forced to
`100`) and differs from what invoking the Fallback Engine's `process_event`
would produce (capacity left as `"abc"`): the Fallback Engine is not the
repairer at this recovery point. -/
theorem preprocess_repair_not_fallback_engine :
    (orchValidateProcessedPayload
        (applyBusinessRules
          { now := 0, parseDate := fun _ => none, workflowId := "w",
            createEvent := fun _ => { success := false } }
          (normalizePayload
            { now := 0, parseDate := fun _ => none, workflowId := "w",
              createEvent := fun _ => { success := false } }
            [("title", Val.vStr "T"), ("event_type", Val.vStr "conference"),
             ("capacity", Val.vStr "abc")]))
      = Except.ok (false, ["Capacity must be an integer"])) ∧
    pyGetD (preprocessEvent
        { now := 0, parseDate := fun _ => none, workflowId := "w",
          createEvent := fun _ => { success := false } }
        [("title", Val.vStr "T"), ("event_type", Val.vStr "conference"),
         ("capacity", Val.vStr "abc")]).processed_payload "capacity" .vNone = Val.vInt 100 ∧
    pyGetD (preprocessEventSpec
        { now := 0, parseDate := fun _ => none, workflowId := "w",
          createEvent := fun _ => { success := false } }
        [("title", Val.vStr "T"), ("event_type", Val.vStr "conference"),
         ("capacity", Val.vStr "abc")]).processed_payload "capacity" .vNone = Val.vStr "abc" ∧
    (preprocessEvent
        { now := 0, parseDate := fun _ => none, workflowId := "w",
          createEvent := fun _ => { success := false } }
        [("title", Val.vStr "T"), ("event_type", Val.vStr "conference"),
         ("capacity", Val.vStr "abc")]).processed_payload ≠
      (preprocessEventSpec
        { now := 0, parseDate := fun _ => none, workflowId := "w",
          createEvent := fun _ => { success := false } }
        [("title", Val.vStr "T"), ("event_type", Val.vStr "conference"),
         ("capacity", Val.vStr "abc")]).processed_payload := by
  refine ⟨rfl, rfl, rfl, ?_⟩
  intro h
  have h2 : Val.vInt 100 = Val.vStr "abc" :=
    congrArg (fun d => pyGetD d "capacity" Val.vNone) h
  exact Val.noConfusion h2

/-- C6 (amended): whenever validation of the normalized, business-rule-processed
payload fails (returning its error list rather than raising), the
orchestrator's own local repair `_fix_validation_issues` — not the Fallback
Engine — is invoked on the payload, and the preprocess step then reports
success with the repaired payload: the step is never marked failed on the
validation-failure path. -/
theorem preprocess_validation_failure_repaired (env : OrchEnv) (payload : Dict)
    (errs : List String)
    (h : orchValidateProcessedPayload (applyBusinessRules env (normalizePayload env payload))
        = Except.ok (false, errs)) :
    preprocessEvent env payload =
      { success := true,
        processed_payload :=
          fixValidationIssues (applyBusinessRules env (normalizePayload env payload)) errs,
        corrections_applied := true } := by
  unfold preprocessEvent
  dsimp only []
  rw [h]
  rfl

/-- Witness for `preprocess_validation_failure_repaired`: a conference payload
with no title fails validation and is repaired locally, the step reporting
success. -/
theorem preprocess_validation_failure_repaired_witness :
    (orchValidateProcessedPayload
        (applyBusinessRules
          { now := 0, parseDate := fun _ => none, workflowId := "w0",
            createEvent := fun _ => { success := false } }
          (normalizePayload
            { now := 0, parseDate := fun _ => none, workflowId := "w0",
              createEvent := fun _ => { success := false } }
            [("event_type", Val.vStr "conference")]))
      = Except.ok (false, ["Missing required field: title"])) ∧
    preprocessEvent
        { now := 0, parseDate := fun _ => none, workflowId := "w0",
          createEvent := fun _ => { success := false } }
        [("event_type", Val.vStr "conference")] =
      { success := true,
        processed_payload :=
          fixValidationIssues
            (applyBusinessRules
              { now := 0, parseDate := fun _ => none, workflowId := "w0",
                createEvent := fun _ => { success := false } }
              (normalizePayload
                { now := 0, parseDate := fun _ => none, workflowId := "w0",
                  createEvent := fun _ => { success := false } }
                [("event_type", Val.vStr "conference")]))
            ["Missing required field: title"],
        corrections_applied := true } :=
  ⟨rfl,
   preprocess_validation_failure_repaired
     { now := 0, parseDate := fun _ => none, workflowId := "w0",
       createEvent := fun _ => { success := false } }
     [("event_type", Val.vStr "conference")] ["Missing required field: title"] rfl⟩

/-- `_attempt_fallback_recovery` hands exactly one payload — the original one —
to `FallbackEngine.process_event`, on every control path. -/
theorem attemptFallbackRecovery_fbcalls (env : OrchEnv) (store : List FallbackRecord)
    (p : Dict) (e : String) :
    (attemptFallbackRecovery env store p e).2.2.fallbackProcessCalls = [p] := by
  unfold attemptFallbackRecovery
  dsimp only []
  split
  · split
    · split <;> rfl
    · rfl
  · rfl

/-- C3: when the create step fails, the orchestrator makes exactly one fallback
attempt, processing the original caller payload (not the preprocessed one used
by the failed create step); if that attempt also fails, the run is marked
failed and the surfaced error is the original create-step error. -/
theorem create_failure_one_fallback_on_original (env : OrchEnv) (store : List FallbackRecord)
    (payload : Dict)
    (hpre : (preprocessEvent env payload).success = true)
    (hc : (env.createEvent (preprocessEvent env payload).processed_payload).success = false) :
    (orchestrateEventCreation env store payload).trace.fallbackProcessCalls = [payload] ∧
    ((attemptFallbackRecovery env store payload
        (env.createEvent (preprocessEvent env payload).processed_payload).error).1.success = false →
      (orchestrateEventCreation env store payload).result.success = false ∧
      (orchestrateEventCreation env store payload).result.error =
        some (env.createEvent (preprocessEvent env payload).processed_payload).error ∧
      (orchestrateEventCreation env store payload).workflow_status = "failed") := by
  unfold orchestrateEventCreation
  dsimp only []
  simp only [hpre, hc, Bool.not_true, Bool.not_false, Bool.false_eq_true, if_false, if_true]
  constructor
  · split
    · exact attemptFallbackRecovery_fbcalls env store payload _
    · exact attemptFallbackRecovery_fbcalls env store payload _
  · intro hrec
    simp only [hrec, Bool.false_eq_true, if_false]
    exact ⟨trivial, trivial, trivial⟩

/-- Environment for the fallback-recovery witnesses: the persistence
collaborator rejects every create call with error `"db down"`. -/
def envCreateFails : OrchEnv :=
  { now := 0, parseDate := fun _ => none, workflowId := "w3",
    createEvent := fun _ => { success := false, error := "db down" } }

/-- A payload that passes preprocessing unchanged apart from business
defaults. -/
def pMeeting : Dict :=
  [("title", Val.vStr "T"), ("event_type", Val.vStr "meeting")]

/-- Witness for `create_failure_one_fallback_on_original`: with a failing
persistence collaborator the single fallback attempt processes the original
payload and the surfaced error is the create step's `"db down"`. -/
theorem create_failure_one_fallback_on_original_witness :
    ((preprocessEvent envCreateFails pMeeting).success = true ∧
     (envCreateFails.createEvent
        (preprocessEvent envCreateFails pMeeting).processed_payload).success = false ∧
     (attemptFallbackRecovery envCreateFails [] pMeeting
        (envCreateFails.createEvent
          (preprocessEvent envCreateFails pMeeting).processed_payload).error).1.success
       = false) ∧
    (orchestrateEventCreation envCreateFails [] pMeeting).trace.fallbackProcessCalls
      = [pMeeting] ∧
    (orchestrateEventCreation envCreateFails [] pMeeting).result.success = false ∧
    (orchestrateEventCreation envCreateFails [] pMeeting).result.error
      = some (envCreateFails.createEvent
          (preprocessEvent envCreateFails pMeeting).processed_payload).error ∧
    (orchestrateEventCreation envCreateFails [] pMeeting).workflow_status = "failed" :=
  ⟨⟨rfl, rfl, rfl⟩,
   (create_failure_one_fallback_on_original envCreateFails [] pMeeting rfl rfl).1,
   (create_failure_one_fallback_on_original envCreateFails [] pMeeting rfl rfl).2 rfl⟩

/-- C7: once the create step — or its fallback recovery — has succeeded, the
run's result has `success: true` and status `completed` regardless of the
postprocess outcome; a postprocess failure is recorded as a failed step in the
workflow's step list but never flips the run. -/
theorem postprocess_failure_nonfatal (env : OrchEnv) (store : List FallbackRecord)
    (payload : Dict)
    (hpre : (preprocessEvent env payload).success = true) :
    ((env.createEvent (preprocessEvent env payload).processed_payload).success = true →
      (orchestrateEventCreation env store payload).result.success = true ∧
      (orchestrateEventCreation env store payload).workflow_status = "completed" ∧
      (orchestrateEventCreation env store payload).steps =
        [⟨"preprocess", "completed"⟩, ⟨"create_event", "completed"⟩,
         ⟨"postprocess",
          if (postprocessFromEventId
               (env.createEvent (preprocessEvent env payload).processed_payload).event_id).success
          then "completed" else "failed"⟩]) ∧
    ((env.createEvent (preprocessEvent env payload).processed_payload).success = false →
      (attemptFallbackRecovery env store payload
         (env.createEvent (preprocessEvent env payload).processed_payload).error).1.success
        = true →
      (orchestrateEventCreation env store payload).result.success = true ∧
      (orchestrateEventCreation env store payload).workflow_status = "completed" ∧
      (orchestrateEventCreation env store payload).steps =
        [⟨"preprocess", "completed"⟩, ⟨"create_event", "failed"⟩,
         ⟨"fallback_recovery", "completed"⟩,
         ⟨"postprocess",
          if (postprocessFromEventId
               (attemptFallbackRecovery env store payload
                 (env.createEvent (preprocessEvent env payload).processed_payload).error).1.event_id).success
          then "completed" else "failed"⟩]) := by
  unfold orchestrateEventCreation
  dsimp only []
  constructor
  · intro hcs
    simp only [hpre, hcs, Bool.not_true, Bool.false_eq_true, if_false]
    exact ⟨trivial, trivial, rfl⟩
  · intro hcf hrec
    simp only [hpre, hcf, hrec, Bool.not_true, Bool.not_false, Bool.false_eq_true,
      if_false, if_true]
    exact ⟨trivial, trivial, rfl⟩

/-- Environment for the postprocess witness: the persistence collaborator
reports success but returns no `event_id`, which is the one way
`_postprocess_event` can fail. -/
def envNoEventId : OrchEnv :=
  { now := 0, parseDate := fun _ => none, workflowId := "w7",
    createEvent := fun _ => { success := true } }

/-- Witness for `postprocess_failure_nonfatal`: the postprocess step fails and
is recorded as a failed step, yet the run still returns `success: true`. -/
theorem postprocess_failure_nonfatal_witness :
    ((preprocessEvent envNoEventId pMeeting).success = true ∧
     (envNoEventId.createEvent
        (preprocessEvent envNoEventId pMeeting).processed_payload).success = true ∧
     (postprocessFromEventId
        (envNoEventId.createEvent
          (preprocessEvent envNoEventId pMeeting).processed_payload).event_id).success
       = false) ∧
    (orchestrateEventCreation envNoEventId [] pMeeting).result.success = true ∧
    (orchestrateEventCreation envNoEventId [] pMeeting).workflow_status = "completed" ∧
    (orchestrateEventCreation envNoEventId [] pMeeting).steps =
      [⟨"preprocess", "completed"⟩, ⟨"create_event", "completed"⟩,
       ⟨"postprocess", "failed"⟩] :=
  ⟨⟨rfl, rfl, rfl⟩,
   ((postprocess_failure_nonfatal envNoEventId [] pMeeting rfl).1 rfl).1,
   ((postprocess_failure_nonfatal envNoEventId [] pMeeting rfl).1 rfl).2.1,
   ((postprocess_failure_nonfatal envNoEventId [] pMeeting rfl).1 rfl).2.2⟩

/-- The per-item entry built by the result loop carries its own index. -/
theorem processGatherItem_event_index (i : Nat) (g : GatherItem) :
    ((processGatherItem i g).2).event_index = i := by
  cases g with
  | exn msg => rfl
  | val r =>
    unfold processGatherItem
    dsimp only []
    split <;> rfl

/-- Closed form of the batch result loop: starting from any batch state, the
fold adds one result entry per item and bumps exactly one of the two counters
per item. -/
theorem batchFold_spec (l : List (Nat × GatherItem)) (st : BatchState) :
    l.foldl batchStep st =
      { total_events := st.total_events,
        processed_events :=
          st.processed_events + l.countP (fun p => (processGatherItem p.1 p.2).1),
        failed_events :=
          st.failed_events + l.countP (fun p => !(processGatherItem p.1 p.2).1),
        results := st.results ++ l.map (fun p => (processGatherItem p.1 p.2).2) } := by
  induction l generalizing st with
  | nil => simp
  | cons h t ih =>
    rw [List.foldl_cons, ih]
    unfold batchStep
    cases hpi : processGatherItem h.1 h.2 with
    | mk b e =>
      cases b <;>
        simp [hpi, List.countP_cons] <;>
        omega

/-- Counting a predicate and its negation partitions a list's length. -/
theorem countP_add_countP_not {α : Type} (p : α → Bool) (l : List α) :
    l.countP p + l.countP (fun a => !p a) = l.length := by
  induction l with
  | nil => rfl
  | cons h t ih =>
    cases hp : p h <;> simp [List.countP_cons, hp] <;> omega

/-- C2: for every gathered outcome list, `processed_events + failed_events =
total_events = len(events)`, `results` holds exactly one entry per input index
(in order), and an item whose pipeline raised is recorded individually with
its exception message — independently of every sibling item. -/
theorem batch_counts_and_individual_capture (items : List GatherItem) :
    (orchestrateBatchProcessing items).processed_events
        + (orchestrateBatchProcessing items).failed_events
      = (orchestrateBatchProcessing items).total_events ∧
    (orchestrateBatchProcessing items).total_events = items.length ∧
    (orchestrateBatchProcessing items).results.map (fun e => e.event_index)
      = List.range items.length ∧
    (∀ (i : Nat) (msg : String), items[i]? = some (GatherItem.exn msg) →
      (orchestrateBatchProcessing items).results[i]? =
        some ({ event_index := i, success := false, error := some msg } : BatchEntry)) := by
  unfold orchestrateBatchProcessing
  rw [batchFold_spec]
  dsimp only []
  refine ⟨?_, rfl, ?_, ?_⟩
  · simp only [Nat.zero_add, List.nil_append]
    rw [countP_add_countP_not, List.enum_length]
  · simp only [List.nil_append, List.map_map]
    have hcongr :
        items.enum.map ((fun e => e.event_index) ∘ fun p => (processGatherItem p.1 p.2).2)
          = items.enum.map Prod.fst := by
      refine List.map_congr_left ?_
      intro a _
      exact processGatherItem_event_index a.1 a.2
    rw [hcongr, List.enum_map_fst]
  · intro i msg hi
    simp only [List.nil_append]
    rw [List.getElem?_map, List.getElem?_enum, hi]
    rfl

/-- A concrete gathered batch: one success, one raised exception, one failed
result. -/
def itemsBatch : List GatherItem :=
  [GatherItem.val { success := true, workflow_id := "w1", event_id := some "e1" },
   GatherItem.exn "boom",
   GatherItem.val { success := false, error := some "bad payload" }]

/-- Witness for `batch_counts_and_individual_capture` on a concrete batch whose
second item raised an exception. -/
theorem batch_counts_and_individual_capture_witness :
    itemsBatch[1]? = some (GatherItem.exn "boom") ∧
    (orchestrateBatchProcessing itemsBatch).processed_events
        + (orchestrateBatchProcessing itemsBatch).failed_events
      = (orchestrateBatchProcessing itemsBatch).total_events ∧
    (orchestrateBatchProcessing itemsBatch).results.map (fun e => e.event_index)
      = List.range itemsBatch.length ∧
    (orchestrateBatchProcessing itemsBatch).results[1]? =
      some ({ event_index := 1, success := false, error := some "boom" } : BatchEntry) :=
  ⟨rfl,
   (batch_counts_and_individual_capture itemsBatch).1,
   (batch_counts_and_individual_capture itemsBatch).2.2.1,
   (batch_counts_and_individual_capture itemsBatch).2.2.2 1 "boom" rfl⟩

/-- Replacing an existing key leaves the key list unchanged (the replacement
stays in place, CPython-style). -/
theorem pyKeys_pySet_of_contains {V : Type} (d : PyDict V) (k : String) (v : V)
    (h : pyContains d k = true) : pyKeys (pySet d k v) = pyKeys d := by
  unfold pySet pyKeys
  rw [if_pos h, List.map_map]
  refine List.map_congr_left ?_
  intro p _
  by_cases hp : (p.1 == k) = true
  · simp only [Function.comp_apply, hp, if_true]
    exact (eq_of_beq hp).symm
  · simp only [Function.comp_apply, hp]
    simp

/-- Replacing an existing key preserves the size. -/
theorem length_pySet_of_contains {V : Type} (d : PyDict V) (k : String) (v : V)
    (h : pyContains d k = true) : (pySet d k v).length = d.length := by
  unfold pySet
  rw [if_pos h, List.length_map]

/-- Inserting a fresh key appends the binding. -/
theorem pySet_of_not_contains {V : Type} (d : PyDict V) (k : String) (v : V)
    (h : pyContains d k = false) : pySet d k v = d ++ [(k, v)] := by
  unfold pySet
  rw [if_neg]
  simp [h]

/-- A key the dict does not contain is not among its keys. -/
theorem not_mem_pyKeys_of_not_contains {V : Type} (d : PyDict V) (k : String)
    (h : pyContains d k = false) : k ∉ pyKeys d := by
  intro hmem
  unfold pyKeys at hmem
  obtain ⟨p, hp, hfst⟩ := List.mem_map.1 hmem
  have hfind : d.find? (fun q => q.1 == k) = none := by
    unfold pyContains pyGet? at h
    cases hf : d.find? (fun q => q.1 == k) with
    | none => rfl
    | some q => rw [hf] at h; simp at h
  have := List.find?_eq_none.1 hfind p hp
  simp [hfst] at this

/-- The eviction loop (`for key in oldest_keys: del self.cache[key]`) equals a
single filter dropping all of those keys. -/
theorem evictFold_eq_filter {V : Type} (ks : List String) (c : PyDict V) :
    ks.foldl (fun acc k => pyPop acc k) c = c.filter (fun p => !ks.contains p.1) := by
  induction ks generalizing c with
  | nil => simp
  | cons k ks ih =>
    rw [List.foldl_cons, ih]
    unfold pyPop
    rw [List.filter_filter]
    refine List.filter_congr ?_
    intro p _
    simp only [List.contains_cons, Bool.not_or, bne]
    rw [Bool.and_comm]

/-- In a dict with distinct keys, filtering to a duplicate-free key set `S`
drawn from the dict's keys keeps exactly `S.length` entries. -/
theorem length_filter_keys_mem {V : Type} (c : PyDict V) (S : List String)
    (hnd : (pyKeys c).Nodup) (hS : S.Nodup) (hsub : ∀ s ∈ S, s ∈ pyKeys c) :
    (c.filter (fun p => S.contains p.1)).length = S.length := by
  have hmap : ((pyKeys c).filter (fun x => S.contains x))
      = (c.filter (fun p => S.contains p.1)).map Prod.fst := by
    unfold pyKeys
    rw [List.filter_map]
    rfl
  have hlen2 : (c.filter (fun p => S.contains p.1)).length
      = ((pyKeys c).filter (fun x => S.contains x)).length := by
    rw [hmap, List.length_map]
  rw [hlen2]
  have hfnd : ((pyKeys c).filter (fun x => S.contains x)).Nodup := hnd.filter _
  have hperm : ((pyKeys c).filter (fun x => S.contains x)).Perm S := by
    rw [List.perm_ext_iff_of_nodup hfnd hS]
    intro a
    constructor
    · intro ha
      have := (List.mem_filter.1 ha).2
      simpa using this
    · intro ha
      refine List.mem_filter.2 ⟨hsub a ha, ?_⟩
      simpa using ha
  exact hperm.length_eq

/-- The overflow case of `_update_autofill_cache`: inserting a fresh key into a
full (100-entry, duplicate-free) cache triggers one batch eviction of exactly
the 20 keys that come first in sorted key order, leaving 101 − 20 = 81
entries. -/
theorem updateAutofillCache_overflow (cache : AutofillCache) (payload : Dict)
    (ff : FormFields) (now : Nat)
    (hnd : (pyKeys cache).Nodup) (hlen : cache.length = 100)
    (hk : pyContains cache (autofillCacheKey payload) = false) :
    updateAutofillCache cache payload ff now =
      (cache ++ [(autofillCacheKey payload, ({ payload := payload, form_fields := ff, timestamp := now } : CacheEntry))]).filter
        (fun p =>
          !((((pyKeys (cache ++ [(autofillCacheKey payload, ({ payload := payload, form_fields := ff, timestamp := now } : CacheEntry))])).insertionSort
              (· ≤ ·)).take 20).contains p.1)) ∧
    (updateAutofillCache cache payload ff now).length = 81 := by
  have hins : pySet cache (autofillCacheKey payload) ({ payload := payload, form_fields := ff, timestamp := now } : CacheEntry)
      = cache ++ [(autofillCacheKey payload, ({ payload := payload, form_fields := ff, timestamp := now } : CacheEntry))] :=
    pySet_of_not_contains _ _ _ hk
  have hclen : (cache ++ [(autofillCacheKey payload, ({ payload := payload, form_fields := ff, timestamp := now } : CacheEntry))]).length = 101 := by
    simp [hlen]
  have hkeys : pyKeys (cache ++ [(autofillCacheKey payload, ({ payload := payload, form_fields := ff, timestamp := now } : CacheEntry))])
      = pyKeys cache ++ [autofillCacheKey payload] := by
    simp [pyKeys]
  have hcnd : (pyKeys (cache ++ [(autofillCacheKey payload, ({ payload := payload, form_fields := ff, timestamp := now } : CacheEntry))])).Nodup := by
    rw [hkeys]
    simp [List.nodup_append, hnd]
    exact not_mem_pyKeys_of_not_contains _ _ hk
  have hsp :
      ((pyKeys (cache ++ [(autofillCacheKey payload, ({ payload := payload, form_fields := ff, timestamp := now } : CacheEntry))])).insertionSort
        (· ≤ ·)).Perm (pyKeys (cache ++ [(autofillCacheKey payload, ({ payload := payload, form_fields := ff, timestamp := now } : CacheEntry))])) :=
    List.perm_insertionSort _ _
  have hsl :
      ((pyKeys (cache ++ [(autofillCacheKey payload, ({ payload := payload, form_fields := ff, timestamp := now } : CacheEntry))])).insertionSort
        (· ≤ ·)).length = 101 := by
    rw [hsp.length_eq]
    unfold pyKeys
    rw [List.length_map, hclen]
  have hsnd :
      ((pyKeys (cache ++ [(autofillCacheKey payload, ({ payload := payload, form_fields := ff, timestamp := now } : CacheEntry))])).insertionSort
        (· ≤ ·)).Nodup := hsp.nodup_iff.2 hcnd
  have hSlen :
      ((((pyKeys (cache ++ [(autofillCacheKey payload, ({ payload := payload, form_fields := ff, timestamp := now } : CacheEntry))])).insertionSort
        (· ≤ ·)).take 20)).length = 20 := by
    rw [List.length_take, hsl]
    decide
  have hSnd :
      ((((pyKeys (cache ++ [(autofillCacheKey payload, ({ payload := payload, form_fields := ff, timestamp := now } : CacheEntry))])).insertionSort
        (· ≤ ·)).take 20)).Nodup :=
    hsnd.sublist (List.take_sublist _ _)
  have hSsub :
      ∀ s ∈ (((pyKeys (cache ++ [(autofillCacheKey payload, ({ payload := payload, form_fields := ff, timestamp := now } : CacheEntry))])).insertionSort
        (· ≤ ·)).take 20),
        s ∈ pyKeys (cache ++ [(autofillCacheKey payload, ({ payload := payload, form_fields := ff, timestamp := now } : CacheEntry))]) := by
    intro s hs
    exact hsp.mem_iff.1 (List.mem_of_mem_take hs)
  have hmain : updateAutofillCache cache payload ff now =
      (cache ++ [(autofillCacheKey payload, ({ payload := payload, form_fields := ff, timestamp := now } : CacheEntry))]).filter
        (fun p =>
          !((((pyKeys (cache ++ [(autofillCacheKey payload, ({ payload := payload, form_fields := ff, timestamp := now } : CacheEntry))])).insertionSort
              (· ≤ ·)).take 20).contains p.1)) := by
    unfold updateAutofillCache
    dsimp only []
    rw [hins, if_pos (by rw [hclen]; omega)]
    rw [evictFold_eq_filter]
  refine ⟨hmain, ?_⟩
  rw [hmain]
  have hpart :=
    List.length_eq_length_filter_add
      (l := cache ++ [(autofillCacheKey payload, ({ payload := payload, form_fields := ff, timestamp := now } : CacheEntry))])
      (fun p =>
        (((pyKeys (cache ++ [(autofillCacheKey payload, ({ payload := payload, form_fields := ff, timestamp := now } : CacheEntry))])).insertionSort
          (· ≤ ·)).take 20).contains p.1)
  have hcnt :
      ((cache ++ [(autofillCacheKey payload, ({ payload := payload, form_fields := ff, timestamp := now } : CacheEntry))]).filter
        (fun p =>
          (((pyKeys (cache ++ [(autofillCacheKey payload, ({ payload := payload, form_fields := ff, timestamp := now } : CacheEntry))])).insertionSort
            (· ≤ ·)).take 20).contains p.1)).length = 20 := by
    rw [length_filter_keys_mem _ _ hcnd hSnd hSsub, hSlen]
  rw [hclen] at hpart
  omega

/-- C4: starting from a cache with distinct keys and at most 100 entries,
every `_update_autofill_cache` call leaves at most 100 entries; and on the
insert that makes the size exceed 100 (full cache, fresh key), one batch
eviction removes exactly the 20 entries whose keys come first in sorted key
order, leaving exactly 81 entries. -/
theorem autofill_cache_bounded (cache : AutofillCache) (payload : Dict) (ff : FormFields)
    (now : Nat) (hnd : (pyKeys cache).Nodup) (hlen : cache.length ≤ 100) :
    (updateAutofillCache cache payload ff now).length ≤ 100 ∧
    (cache.length = 100 → pyContains cache (autofillCacheKey payload) = false →
      updateAutofillCache cache payload ff now =
        (cache ++ [(autofillCacheKey payload,
            ({ payload := payload, form_fields := ff, timestamp := now } : CacheEntry))]).filter
          (fun p =>
            !((((pyKeys (cache ++ [(autofillCacheKey payload,
                ({ payload := payload, form_fields := ff, timestamp := now } : CacheEntry))])).insertionSort
                (· ≤ ·)).take 20).contains p.1)) ∧
      (updateAutofillCache cache payload ff now).length = 81) ∧
    (pyKeys (updateAutofillCache cache payload ff now)).Nodup := by
  refine ⟨?_, ?_, ?_⟩
  · by_cases hk : pyContains cache (autofillCacheKey payload) = true
    · unfold updateAutofillCache
      dsimp only []
      have hlen2 : (pySet cache (autofillCacheKey payload)
          ({ payload := payload, form_fields := ff, timestamp := now } : CacheEntry)).length
          = cache.length :=
        length_pySet_of_contains _ _ _ hk
      rw [if_neg (by rw [hlen2]; omega)]
      rw [hlen2]
      exact hlen
    · have hk' : pyContains cache (autofillCacheKey payload) = false := by
        cases h : pyContains cache (autofillCacheKey payload)
        · rfl
        · exact absurd h hk
      by_cases h100 : cache.length = 100
      · have h81 := (updateAutofillCache_overflow cache payload ff now hnd h100 hk').2
        omega
      · unfold updateAutofillCache
        dsimp only []
        rw [pySet_of_not_contains _ _ _ hk']
        rw [if_neg (by simp only [List.length_append, List.length_singleton]; omega)]
        simp only [List.length_append, List.length_singleton]
        omega
  · intro h100 hkf
    exact updateAutofillCache_overflow cache payload ff now hnd h100 hkf
  · by_cases hk : pyContains cache (autofillCacheKey payload) = true
    · unfold updateAutofillCache
      dsimp only []
      have hlen2 : (pySet cache (autofillCacheKey payload)
          ({ payload := payload, form_fields := ff, timestamp := now } : CacheEntry)).length
          = cache.length :=
        length_pySet_of_contains _ _ _ hk
      rw [if_neg (by rw [hlen2]; omega)]
      rw [pyKeys_pySet_of_contains _ _ _ hk]
      exact hnd
    · have hk' : pyContains cache (autofillCacheKey payload) = false := by
        cases h : pyContains cache (autofillCacheKey payload)
        · rfl
        · exact absurd h hk
      have hcnd : (pyKeys (cache ++ [(autofillCacheKey payload,
          ({ payload := payload, form_fields := ff, timestamp := now } : CacheEntry))])).Nodup := by
        have hkeys2 : pyKeys (cache ++ [(autofillCacheKey payload,
            ({ payload := payload, form_fields := ff, timestamp := now } : CacheEntry))])
            = pyKeys cache ++ [autofillCacheKey payload] := by
          simp [pyKeys]
        rw [hkeys2]
        simp [List.nodup_append, hnd]
        exact not_mem_pyKeys_of_not_contains _ _ hk'
      by_cases h100 : cache.length = 100
      · rw [(updateAutofillCache_overflow cache payload ff now hnd h100 hk').1]
        exact hcnd.sublist (List.Sublist.map Prod.fst (List.filter_sublist _))
      · unfold updateAutofillCache
        dsimp only []
        rw [pySet_of_not_contains _ _ _ hk']
        rw [if_neg (by simp only [List.length_append, List.length_singleton]; omega)]
        exact hcnd

/-- A full autofill cache: 100 entries with distinct keys `k100`…`k199`. -/
def cacheFull : AutofillCache :=
  (List.range 100).map
    (fun i => ("k" ++ toString (100 + i),
      ({ payload := [], form_fields := ⟨[]⟩, timestamp := 0 } : CacheEntry)))

/-- The payload whose cache key `a_b` is fresh for `cacheFull`. -/
def pAB : Dict := [("event_type", Val.vStr "a"), ("title", Val.vStr "b")]

/-- Witness for `autofill_cache_bounded`: inserting a fresh key into the full
100-entry cache leaves exactly 81 entries, within the 100-entry bound. -/
theorem autofill_cache_bounded_witness :
    ((pyKeys cacheFull).Nodup ∧ cacheFull.length = 100 ∧
     pyContains cacheFull (autofillCacheKey pAB) = false) ∧
    (updateAutofillCache cacheFull pAB ⟨[]⟩ 0).length = 81 ∧
    (updateAutofillCache cacheFull pAB ⟨[]⟩ 0).length ≤ 100 :=
  ⟨⟨by decide, by decide, by decide⟩,
   ((autofill_cache_bounded cacheFull pAB ⟨[]⟩ 0 (by decide) (by decide)).2.1
      (by decide) (by decide)).2,
   (autofill_cache_bounded cacheFull pAB ⟨[]⟩ 0 (by decide) (by decide)).1⟩
